import Mathlib

/-!
Verification of the pyATS read-only show-command API.

This file shallowly embeds the validation layer (`app/models.py`) and the
multi-device execution orchestrator (`app/main.py`) of the repository and
proves properties about them.  Pure Python functions become Lean functions;
the external effects (paramiko jumphost connections, Unicon device sessions)
are abstracted as behaviour oracles passed to the embedded orchestrator,
exactly at the call boundaries where `main.py` invokes them.
-/

namespace PyatsApi

/-! ## Python string/regex semantics (ASCII fragment)

The validators use `str.strip`, `str.lower`, `str.startswith` and literal
`re.search`/anchored character-class patterns.  We model the ASCII fragment
of Python's semantics (all inputs relevant to the claims are ASCII):
whitespace is the class matched by `\s` on ASCII text. -/

/-- Characters treated as whitespace by Python's `str.strip` and `\s`
(ASCII fragment): space, tab, newline, carriage return, vertical tab,
form feed. -/
def py_ws (c : Char) : Bool :=
  c == ' ' || c == '\t' || c == '\n' || c == '\r' || c == '\x0B' || c == '\x0C'

/-- Python `str.strip()`: drop whitespace from both ends. -/
def py_strip (s : String) : String :=
  ⟨List.reverse (List.dropWhile py_ws (List.reverse (List.dropWhile py_ws s.data)))⟩

/-- Python `str.lower()` (ASCII fragment). -/
def py_lower (s : String) : String :=
  ⟨s.data.map Char.toLower⟩

/-- Does the first list occur at the head of the second list? -/
def chars_start_with : List Char → List Char → Bool
  | [], _ => true
  | _ :: _, [] => false
  | a :: ps, b :: ss => a == b && chars_start_with ps ss

/-- Does the first list occur as a contiguous sublist of the second? -/
def chars_contain (p : List Char) : List Char → Bool
  | [] => p.isEmpty
  | c :: rest => chars_start_with p (c :: rest) || chars_contain p rest

/-- Python `str.startswith(pre)`. -/
def py_starts_with (s pre : String) : Bool :=
  chars_start_with pre.data s.data

/-- Python `re.search(pat, s)` for a literal pattern: substring containment. -/
def str_has_sub (s pat : String) : Bool :=
  chars_contain pat.data s.data

/-! ## Data model (`app/models.py`) -/

/-- `DeviceOS` enum: supported device operating systems. -/
inductive DeviceOS
  | IOS | IOSXE | IOSXR | NXOS | ASA
deriving DecidableEq, Repr

/-- `PipeOption` enum: show command pipe options. -/
inductive PipeOption
  | INCLUDE | EXCLUDE | BEGIN | SECTION
deriving DecidableEq, Repr

/-- The `.value` string of each `PipeOption` member. -/
def PipeOption.value : PipeOption → String
  | .INCLUDE => "include"
  | .EXCLUDE => "exclude"
  | .BEGIN => "begin"
  | .SECTION => "section"

/-- `OutputFormat` enum: available output formats for command execution. -/
inductive OutputFormat
  | RAW | PARSED | BOTH
deriving DecidableEq, Repr

/-- `JumphostConfig`: per-device jumphost configuration.  The definition in
the `models.py` snapshot here predates the jumphost feature; the field set is
the one constructed by `tests/test_models.py` and consumed by `main.py`
(`host`, `port` defaulting to 22, `username`, `key_path`). -/
structure JumphostConfig where
  host : String
  port : Nat
  username : String
  key_path : String
deriving DecidableEq, Repr

/-- `DeviceCredentials`: device connection parameters.  `jumphost` is the
optional per-device jumphost configuration read by `main.py`
(`device_creds.jumphost`) and exercised by `tests/test_models.py`. -/
structure DeviceCredentials where
  hostname : String
  port : Nat
  username : String
  password : String
  os : DeviceOS
  enable_password : Option String
  jumphost : Option JumphostConfig
deriving DecidableEq, Repr

/-- `ShowCommand.DANGEROUS_PATTERNS`: each entry pairs the literal text the
regex matches with the raw regex source used in the error message
(`re.search` on these literal patterns is substring containment). -/
def DANGEROUS_PATTERNS : List (String × String) :=
  [ (";", ";"),
    ("\n", "\\n"),
    ("\r", "\\r"),
    ("`", "`"),
    ("$", "\\$"),
    ("|", "\\|"),
    ("&&", "&&"),
    ("||", "\\|\\|"),
    (">", ">"),
    ("<", "<"),
    ("&", "&"),
    ("!", "!") ]

/-- Scan `DANGEROUS_PATTERNS` in order and return the first pattern that
matches (as `re.search` does inside `validate_command`'s loop). -/
def find_dangerous (s : String) : Option (String × String) :=
  DANGEROUS_PATTERNS.find? (fun p => str_has_sub s p.fst)

/-- The raw regex source of the first dangerous pattern found in `s`
(empty when none matches); used to state error-message equalities. -/
def dangerous_message (s : String) : String :=
  match find_dangerous s with
  | some p => p.snd
  | none => ""

/-- Characters admitted by `[a-zA-Z0-9]`. -/
def is_alnum (c : Char) : Bool :=
  c.isAlpha || c.isDigit

/-- Character class of `SHOW_COMMAND_PATTERN`: `[a-zA-Z0-9\s\-_\.]`. -/
def show_class (c : Char) : Bool :=
  is_alnum c || py_ws c || c == '-' || c == '_' || c == '.'

/-- `SHOW_COMMAND_PATTERN.match`: `^show\s+[a-zA-Z0-9\s\-_\.]+$` with
`re.IGNORECASE`.  On input free of `\n` (guaranteed by the denylist scan that
precedes this check) the regex matches iff the string is a case-insensitive
`show`, then one whitespace character, then at least one more character,
with everything after `show` drawn from the class (which contains `\s`). -/
def matches_show_pattern (s : String) : Bool :=
  match s.data with
  | c1 :: c2 :: c3 :: c4 :: rest =>
    (c1.toLower == 's') && (c2.toLower == 'h') && (c3.toLower == 'o') && (c4.toLower == 'w') &&
    (match rest with
     | [] => false
     | r :: rtail => py_ws r && !rtail.isEmpty && rest.all show_class)
  | _ => false

/-- Character class of `PIPE_VALUE_PATTERN`: `[a-zA-Z0-9\s\-_\.,\(\)]`. -/
def pipe_class (c : Char) : Bool :=
  is_alnum c || py_ws c || c == '-' || c == '_' || c == '.' || c == ',' || c == '(' || c == ')'

/-- `PIPE_VALUE_PATTERN.match`: `^[a-zA-Z0-9\s\-_\.,\(\)]+$` (no `\n`
present when this runs, for the same reason as `matches_show_pattern`). -/
def matches_pipe_pattern (s : String) : Bool :=
  !s.data.isEmpty && s.data.all pipe_class

/-- `ShowCommand.validate_command`: empty check on the raw value, strip,
empty and length checks, the show-only verb check, the denylist scan (in
declaration order, naming the offending pattern), then the allow-list
grammar; returns the stripped command on success. -/
def validate_command (v : String) : Except String String :=
  if v = "" then .error "Command cannot be empty"
  else if (py_strip v).length = 0 then .error "Command cannot be empty"
  else if 1000 < (py_strip v).length then
    .error "Command exceeds maximum length of 1000 characters"
  else if py_starts_with (py_lower (py_strip v)) "show" = false then
    .error "Only 'show' commands are allowed"
  else
    match find_dangerous (py_strip v) with
    | some pat => .error ("Command contains disallowed character(s): '" ++ pat.snd ++ "'")
    | none =>
      if matches_show_pattern (py_strip v) = false then
        .error "Command must be 'show' followed by valid parameters. Only alphanumeric characters, spaces, hyphens, underscores, and dots are allowed."
      else .ok (py_strip v)

/-- `ShowCommand.validate_pipe_value`: when a value is present, check
non-emptiness, length, the denylist and the pipe allow-list grammar.  Note:
despite its own comment, the Python body never consults `pipe_option`. -/
def validate_pipe_value (v : Option String) : Except String (Option String) :=
  match v with
  | none => .ok none
  | some s =>
    if s = "" then .error "Pipe value cannot be empty"
    else if 500 < s.length then .error "Pipe value exceeds maximum length of 500 characters"
    else
      match find_dangerous s with
      | some _ => .error "Pipe value contains disallowed character(s)"
      | none =>
        if matches_pipe_pattern s = false then
          .error "Pipe value contains invalid characters. Only alphanumeric, spaces, hyphens, underscores, dots, commas, and parentheses are allowed."
        else .ok (some s)

/-- `ShowCommand`: a show command with optional pipe filter. -/
structure ShowCommand where
  command : String
  pipe_option : Option PipeOption
  pipe_value : Option String
deriving DecidableEq, Repr

/-- Pydantic construction of a `ShowCommand`: run the field validators in
field order (`command`, then `pipe_value`; `pipe_option` has no validator
beyond enum typing) and build the model from the validated values. -/
def mkShowCommand (command : String) (pipe_option : Option PipeOption)
    (pipe_value : Option String) : Except String ShowCommand :=
  match validate_command command with
  | .error e => .error e
  | .ok cmd =>
    match validate_pipe_value pipe_value with
    | .error e => .error e
    | .ok pv => .ok { command := cmd, pipe_option := pipe_option, pipe_value := pv }

/-- `ShowCommand.get_full_command`: append the pipe filter when both
`pipe_option` and `pipe_value` are truthy (a present-but-empty string pipe
value is falsy in Python and suppresses the filter). -/
def get_full_command (c : ShowCommand) : String :=
  match c.pipe_option, c.pipe_value with
  | some op, some pv =>
    if pv = "" then c.command else c.command ++ " | " ++ op.value ++ " " ++ pv
  | _, _ => c.command

/-- `ShowCommandRequest`: request to execute show commands on one or more
devices.  `use_jumphost` is the request-level default-jumphost switch read by
`main.py` and exercised by `tests/test_models.py` (default `false`). -/
structure ShowCommandRequest where
  devices : List DeviceCredentials
  commands : List ShowCommand
  timeout : Nat
  output_format : OutputFormat
  use_jumphost : Bool
deriving DecidableEq, Repr

/-- `CommandResult`: result of a single command execution. -/
structure CommandResult where
  command : String
  output : String
  success : Bool
  parsed : Option String
  parse_error : Option String
  error : Option String
deriving DecidableEq, Repr

/-- `DeviceResult`: results for a single device. -/
structure DeviceResult where
  hostname : String
  success : Bool
  commands : List CommandResult
  error : Option String
deriving DecidableEq, Repr

/-- `ShowCommandResponse`: response containing results from all devices. -/
structure ShowCommandResponse where
  results : List DeviceResult
  total_devices : Nat
  successful_devices : Nat
  failed_devices : Nat
deriving DecidableEq, Repr

/-- The jumphost-related fields of `app/config.py`'s `Settings`. -/
structure Settings where
  jumphost_host : Option String
  jumphost_port : Nat
  jumphost_username : Option String
  jumphost_key_path : Option String
deriving DecidableEq, Repr

/-- Python truthiness of an `Optional[str]` setting: present and non-empty. -/
def truthy : Option String → Bool
  | none => false
  | some s => s != ""

/-! ## Orchestrator (`app/main.py`)

`execute_commands` and `process_device` perform I/O through three external
capabilities: the paramiko jumphost connection (`JumphostManager.connect`),
the Unicon device session setup (`DeviceManager.connect`) and per-command
execution (`DeviceManager.execute_command`).  These are modelled as oracles:
each call site consults the oracle and either receives a value or an
exception message (Python exceptions become `Except.error (str e)`).  The
best-effort `disconnect` calls in the `finally` blocks have no observable
effect on the returned data and are not modelled. -/

/-- Behaviour of one device's session: the outcome of `DeviceManager.connect`
and, for each command position, the outcome of
`DeviceManager.execute_command` (raw output or exception message). -/
structure SessionBehavior where
  connect : Except String Unit
  exec : Nat → Except String String

/-- Behaviour of the orchestration run's external calls: the global jumphost
`connect`, the per-device jumphost `connect` (consulted by cache key), and
each device's session behaviour (by device position in the request). -/
structure OrchBehavior where
  global_connect : Except String Unit
  proxy_connect : String → Except String Unit
  session : Nat → SessionBehavior

/-- The per-command loop of `process_device` (`main.py` lines 279-294):
execute each command in order; a success appends
`CommandResult(success=True)` with the raw output, an exception is caught
and appends `CommandResult(success=False, error=str(e))` with empty output;
the loop always continues to the next command.  `parsed`/`parse_error` are
never set by `main.py`. -/
def run_commands (beh : SessionBehavior) : Nat → List ShowCommand → List CommandResult
  | _, [] => []
  | idx, cmd :: rest =>
    (match beh.exec idx with
     | .ok out =>
       { command := get_full_command cmd, output := out, success := true,
         parsed := none, parse_error := none, error := none }
     | .error e =>
       { command := get_full_command cmd, output := "", success := false,
         parsed := none, parse_error := none, error := some e }) ::
    run_commands beh (idx + 1) rest

/-- `process_device`: connect to the device, run all commands, and return a
`DeviceResult`.  Any exception outside the per-command loop (in practice the
`DeviceManager.connect` call) is caught and produces
`DeviceResult(success=False, commands=<results so far>=[], error=str(e))`;
on successful connection the device-level `success` is `True` regardless of
individual command failures.  The function is total: no exception escapes. -/
def process_device (device_creds : DeviceCredentials) (commands : List ShowCommand)
    (beh : SessionBehavior) : DeviceResult :=
  match beh.connect with
  | .error e =>
    { hostname := device_creds.hostname, success := false, commands := [], error := some e }
  | .ok _ =>
    { hostname := device_creds.hostname, success := true,
      commands := run_commands beh 0 commands, error := none }

/-- The cache key of `main.py` line 198:
`f"{host}:{port}:{username}"` of a per-device jumphost config. -/
def device_key (j : JumphostConfig) : String :=
  j.host ++ ":" ++ toString j.port ++ ":" ++ j.username

/-- The device loop of `execute_commands` (`main.py` lines 191-224).  State:
`idx` is the device position, `cache` the keys of already-created per-device
jumphost managers (`device_jumphost_managers`), doubling as the creation log
since each key is connected exactly once.  A cache miss calls
`proxy_connect`; an exception there propagates (only a `finally` guards the
loop), aborting all remaining devices.  `process_device` itself never
throws, so its result is always appended. -/
def process_devices (beh : OrchBehavior) (commands : List ShowCommand) :
    Nat → List String → List DeviceCredentials →
    Except String (List DeviceResult × List String)
  | _, cache, [] => .ok ([], cache)
  | idx, cache, d :: rest =>
    let cont := fun (cache' : List String) =>
      match process_devices beh commands (idx + 1) cache' rest with
      | .error e => .error e
      | .ok (rs, cfinal) =>
        .ok (process_device d commands (beh.session idx) :: rs, cfinal)
    match d.jumphost with
    | some j =>
      if cache.contains (device_key j) then cont cache
      else
        match beh.proxy_connect (device_key j) with
        | .error e => .error e
        | .ok _ => cont (cache ++ [device_key j])
    | none => cont cache

/-- The summary statistics of `main.py` lines 240-249: `successful_devices`
is `sum(1 for r in results if r.success)`, `failed_devices` the difference,
`total_devices` the length of the result list. -/
def build_response (results : List DeviceResult) : ShowCommandResponse :=
  { results := results,
    total_devices := results.length,
    successful_devices := results.countP (fun r => r.success),
    failed_devices := results.length - results.countP (fun r => r.success) }

/-- Global jumphost initialization (`main.py` lines 168-188): when
`use_jumphost` is set, an incomplete global configuration raises an
`HTTPException` (400) before any connection; otherwise the global jumphost
`connect` runs and its exception, if any, propagates. -/
def global_init (req : ShowCommandRequest) (settings : Settings)
    (beh : OrchBehavior) : Except String Unit :=
  if req.use_jumphost then
    if (truthy settings.jumphost_host && truthy settings.jumphost_username &&
        truthy settings.jumphost_key_path) = false then
      .error "Jumphost requested but global configuration is incomplete. Set JUMPHOST_HOST, JUMPHOST_USERNAME, and JUMPHOST_KEY_PATH environment variables, or provide per-device jumphost configuration."
    else beh.global_connect
  else .ok ()

/-- `execute_commands`: initialize the global jumphost if requested, process
each device in request order, and build the response.  The returned pair
also exposes the per-device jumphost creation log (the keys for which a
proxy connection was created, in creation order).  A propagated exception
(incomplete config, global or per-device jumphost connect failure) is the
`Except.error` case: the request produces no response at all. -/
def execute_commands (req : ShowCommandRequest) (settings : Settings)
    (beh : OrchBehavior) : Except String (ShowCommandResponse × List String) :=
  match global_init req settings beh with
  | .error e => .error e
  | .ok _ =>
    match process_devices beh req.commands 0 [] req.devices with
    | .error e => .error e
    | .ok (results, log) => .ok (build_response results, log)

/-! ## Derived forms used in theorem statements -/

/-- The list of device results the loop produces when no jumphost failure
interrupts it: device at position `i` is processed with session behaviour
`beh.session (idx + i)`. -/
def expected_results (beh : OrchBehavior) (commands : List ShowCommand) :
    Nat → List DeviceCredentials → List DeviceResult
  | _, [] => []
  | idx, d :: rest =>
    process_device d commands (beh.session idx) :: expected_results beh commands (idx + 1) rest

/-- The jumphost-key cache after the loop visits all devices (assuming no
jumphost failure interrupts it). -/
def cache_after : List String → List DeviceCredentials → List String
  | cache, [] => cache
  | cache, d :: rest =>
    match d.jumphost with
    | some j =>
      if cache.contains (device_key j) then cache_after cache rest
      else cache_after (cache ++ [device_key j]) rest
    | none => cache_after cache rest

/-! ## Concrete fixtures used by closed theorems and witnesses -/

/-- A device with no per-device jumphost. -/
def credA : DeviceCredentials :=
  { hostname := "192.168.1.1", port := 22, username := "admin",
    password := "cisco123", os := DeviceOS.IOSXE, enable_password := none,
    jumphost := none }

/-- A second device with no per-device jumphost. -/
def credB : DeviceCredentials :=
  { hostname := "192.168.1.2", port := 22, username := "admin",
    password := "cisco123", os := DeviceOS.NXOS, enable_password := none,
    jumphost := none }

/-- A jumphost configuration. -/
def jumpJ : JumphostConfig :=
  { host := "jump.example.com", port := 22, username := "jumpuser",
    key_path := "/root/.ssh/id_rsa" }

/-- A jumphost configuration with the same identity `(host, port, username)`
as `jumpJ` but a different key path. -/
def jumpJ2 : JumphostConfig :=
  { host := "jump.example.com", port := 22, username := "jumpuser",
    key_path := "/root/.ssh/backup_key" }

/-- `credA` routed through `jumpJ`. -/
def credAJ : DeviceCredentials := { credA with jumphost := some jumpJ }

/-- `credB` routed through `jumpJ2` (same proxy identity as `jumpJ`). -/
def credBJ : DeviceCredentials := { credB with jumphost := some jumpJ2 }

/-- `show version` with no pipe filter. -/
def cmd_show_version : ShowCommand :=
  { command := "show version", pipe_option := none, pipe_value := none }

/-- `show running-config | include interface`. -/
def cmd_show_run : ShowCommand :=
  { command := "show running-config", pipe_option := some PipeOption.INCLUDE,
    pipe_value := some "interface" }

/-- Settings with no global jumphost configured. -/
def settings0 : Settings :=
  { jumphost_host := none, jumphost_port := 22, jumphost_username := none,
    jumphost_key_path := none }

/-! ## Helper lemmas -/

/-- A string has length zero iff it is empty. -/
theorem string_length_eq_zero (s : String) : s.length = 0 ↔ s = "" := by
  cases s with
  | mk l =>
    cases l with
    | nil => exact ⟨fun _ => rfl, fun _ => rfl⟩
    | cons a t =>
      constructor
      · intro h; exact absurd h (by simp [String.length])
      · intro h
        have : (String.mk (a :: t)).data = ("" : String).data := congrArg String.data h
        simp at this

/-- When every per-device jumphost connect succeeds, the device loop never
aborts: it returns the expected per-device results and the expected cache. -/
theorem process_devices_ok (beh : OrchBehavior) (commands : List ShowCommand)
    (hproxy : ∀ k, beh.proxy_connect k = .ok ()) :
    ∀ (devices : List DeviceCredentials) (idx : Nat) (cache : List String),
      process_devices beh commands idx cache devices =
        .ok (expected_results beh commands idx devices, cache_after cache devices) := by
  intro devices
  induction devices with
  | nil => intro idx cache; rfl
  | cons d rest ih =>
    intro idx cache
    cases hj : d.jumphost with
    | none => simp [process_devices, expected_results, cache_after, hj, ih]
    | some j =>
      by_cases hc : device_key j ∈ cache
      · simp [process_devices, expected_results, cache_after, hj, hc, ih]
      · simp [process_devices, expected_results, cache_after, hj, hc, hproxy, ih]

/-- The loop produces one result per device. -/
theorem expected_results_length (beh : OrchBehavior) (commands : List ShowCommand) :
    ∀ (devices : List DeviceCredentials) (idx : Nat),
      (expected_results beh commands idx devices).length = devices.length := by
  intro devices
  induction devices with
  | nil => intro idx; rfl
  | cons d rest ih => intro idx; simp [expected_results, ih]

/-- The result at position `i` is the processing of the device at position
`i` with its own session behaviour. -/
theorem expected_results_get (beh : OrchBehavior) (commands : List ShowCommand) :
    ∀ (devices : List DeviceCredentials) (idx i : Nat),
      (expected_results beh commands idx devices)[i]? =
        (devices[i]?).map (fun d => process_device d commands (beh.session (idx + i))) := by
  intro devices
  induction devices with
  | nil => intro idx i; simp [expected_results]
  | cons d rest ih =>
    intro idx i
    cases i with
    | zero => simp [expected_results]
    | succ n =>
      have harith : idx + 1 + n = idx + (n + 1) := by omega
      simp [expected_results, ih (idx + 1) n, harith]

/-! ## Behaviour fixtures -/

/-- Session behaviour where the first command succeeds and the second raises
a timeout. -/
def behC2 : SessionBehavior :=
  { connect := .ok (),
    exec := fun i => if i = 0 then .ok "Cisco IOS XE Software, Version 17.03.01"
                     else .error "Timeout occurred while executing command" }

/-- Session behaviour where the first command raises and the second
succeeds. -/
def behC2b : SessionBehavior :=
  { connect := .ok (),
    exec := fun i => if i = 0 then .error "Command execution failed"
                     else .ok "interface Vlan1" }

/-- Orchestration behaviour whose per-device jumphost connect always
raises. -/
def behC1X : OrchBehavior :=
  { global_connect := .ok (),
    proxy_connect := fun _ => .error "Failed to connect to jumphost: Authentication failed",
    session := fun _ => { connect := .ok (), exec := fun _ => .ok "ok" } }

/-- Request with a jumphost-routed device followed by a direct device. -/
def reqC1X : ShowCommandRequest :=
  { devices := [credAJ, credB], commands := [cmd_show_version], timeout := 30,
    output_format := OutputFormat.RAW, use_jumphost := false }

/-- Orchestration behaviour where the first device's session connect raises
and the second device works. -/
def behC1W : OrchBehavior :=
  { global_connect := .ok (),
    proxy_connect := fun _ => .ok (),
    session := fun i =>
      if i = 0 then { connect := .error "SSH connection failed", exec := fun _ => .ok "" }
      else { connect := .ok (), exec := fun _ => .ok "uptime is 1 week" } }

/-- Two direct devices, one command. -/
def reqC1W : ShowCommandRequest :=
  { devices := [credA, credB], commands := [cmd_show_version], timeout := 30,
    output_format := OutputFormat.RAW, use_jumphost := false }

/-- Orchestration behaviour where device A succeeds on both commands and
device B's connection is refused. -/
def behC9 : OrchBehavior :=
  { global_connect := .ok (),
    proxy_connect := fun _ => .ok (),
    session := fun i =>
      if i = 0 then
        { connect := .ok (),
          exec := fun j => .ok (if j = 0 then "uptime is 1 week" else "interface Vlan1") }
      else
        { connect := .error "Connection refused", exec := fun _ => .ok "" } }

/-- Two direct devices, two commands. -/
def reqC9 : ShowCommandRequest :=
  { devices := [credA, credB], commands := [cmd_show_version, cmd_show_run], timeout := 30,
    output_format := OutputFormat.RAW, use_jumphost := false }

/-- Expected device result for device A under `behC9`. -/
def resultA : DeviceResult :=
  { hostname := "192.168.1.1", success := true,
    commands := [
      { command := "show version", output := "uptime is 1 week",
        success := true, parsed := none, parse_error := none, error := none },
      { command := "show running-config | include interface", output := "interface Vlan1",
        success := true, parsed := none, parse_error := none, error := none } ],
    error := none }

/-- Expected device result for device B under `behC9`. -/
def resultB : DeviceResult :=
  { hostname := "192.168.1.2", success := false, commands := [],
    error := some "Connection refused" }

/-- Expected response for `reqC9` under `behC9`. -/
def respC9 : ShowCommandResponse :=
  { results := [resultA, resultB], total_devices := 2,
    successful_devices := 1, failed_devices := 1 }

/-- Orchestration behaviour where everything succeeds. -/
def behOk : OrchBehavior :=
  { global_connect := .ok (),
    proxy_connect := fun _ => .ok (),
    session := fun _ =>
      { connect := .ok (), exec := fun _ => .ok "Cisco IOS XE Software, Version 17.03.01" } }

/-- Two devices sharing one jumphost identity, one command. -/
def reqC6 : ShowCommandRequest :=
  { devices := [credAJ, credBJ], commands := [cmd_show_version], timeout := 30,
    output_format := OutputFormat.RAW, use_jumphost := false }

/-- One direct device, one command, parsed output requested. -/
def reqC5 : ShowCommandRequest :=
  { devices := [credA], commands := [cmd_show_version], timeout := 30,
    output_format := OutputFormat.PARSED, use_jumphost := false }

/-- Expected device result for `reqC5` under `behOk`: the command succeeds
yet `parsed` and `parse_error` stay unset. -/
def resultC5 : DeviceResult :=
  { hostname := "192.168.1.1", success := true,
    commands := [
      { command := "show version", output := "Cisco IOS XE Software, Version 17.03.01",
        success := true, parsed := none, parse_error := none, error := none } ],
    error := none }

/-! ## Claims -/

/-- C1 counterexample: the claim says a proxy/jumphost connect failure for a
device yields a `DeviceResult` with `succeeded=false` and that the
orchestrator continues with the remaining devices.  On the code, the
per-device jumphost `connect` call sits in `execute_commands`'s device loop
guarded only by a `finally`: the exception propagates, the whole request
aborts with no device results at all, and the second device is never
processed. -/
theorem c1_counterexample :
    execute_commands reqC1X settings0 behC1X =
      .error "Failed to connect to jumphost: Authentication failed" := rfl

/-- C1 (amended): failures inside a device's own session processing are
isolated — when no proxy failure interrupts the loop, the orchestrator
returns one result per device, and a device whose session `connect` raised
contributes `DeviceResult(success=false, commands=[], error=str(e))` while
all other devices are still processed.  Proxy/jumphost connect failures, by
contrast, abort the whole request (see `c1_counterexample`). -/
theorem c1_device_isolation_amended (req : ShowCommandRequest) (settings : Settings)
    (beh : OrchBehavior) (hjump : req.use_jumphost = false)
    (hproxy : ∀ k, beh.proxy_connect k = .ok ())
    (i : Nat) (d : DeviceCredentials) (hd : req.devices[i]? = some d)
    (e : String) (hconn : (beh.session i).connect = .error e) :
    execute_commands req settings beh =
      .ok (build_response (expected_results beh req.commands 0 req.devices),
           cache_after [] req.devices) ∧
    (expected_results beh req.commands 0 req.devices).length = req.devices.length ∧
    (expected_results beh req.commands 0 req.devices)[i]? =
      some { hostname := d.hostname, success := false, commands := [], error := some e } := by
  have hg : global_init req settings beh = .ok () := by simp [global_init, hjump]
  refine ⟨?_, expected_results_length beh req.commands req.devices 0, ?_⟩
  · simp [execute_commands, hg, process_devices_ok beh req.commands hproxy]
  · rw [expected_results_get beh req.commands req.devices 0 i, hd]
    simp [process_device, hconn]

/-- C1 witness: the amended theorem applied to a concrete two-device request
whose first device fails to connect. -/
theorem c1_device_isolation_witness :
    execute_commands reqC1W settings0 behC1W =
      .ok (build_response (expected_results behC1W reqC1W.commands 0 reqC1W.devices),
           cache_after [] reqC1W.devices) ∧
    (expected_results behC1W reqC1W.commands 0 reqC1W.devices).length = reqC1W.devices.length ∧
    (expected_results behC1W reqC1W.commands 0 reqC1W.devices)[0]? =
      some { hostname := credA.hostname, success := false, commands := [],
             error := some "SSH connection failed" } :=
  c1_device_isolation_amended reqC1W settings0 behC1W rfl (fun _ => rfl) 0 credA rfl
    "SSH connection failed" rfl

/-- C2: one device, two commands; the first succeeds, the second raises a
timeout.  The device-level `success` stays `true`, the first `CommandResult`
succeeds, the second fails carrying the timeout message, and `process_device`
returns normally (it is a total function — no exception escapes).  The
second conjunct shows the converse order: after the first command fails, the
second is still attempted and recorded. -/
theorem c2_command_failure_isolated :
    process_device credA [cmd_show_version, cmd_show_run] behC2 =
      { hostname := "192.168.1.1", success := true,
        commands := [
          { command := "show version", output := "Cisco IOS XE Software, Version 17.03.01",
            success := true, parsed := none, parse_error := none, error := none },
          { command := "show running-config | include interface", output := "",
            success := false, parsed := none, parse_error := none,
            error := some "Timeout occurred while executing command" } ],
        error := none } ∧
    process_device credA [cmd_show_version, cmd_show_run] behC2b =
      { hostname := "192.168.1.1", success := true,
        commands := [
          { command := "show version", output := "",
            success := false, parsed := none, parse_error := none,
            error := some "Command execution failed" },
          { command := "show running-config | include interface", output := "interface Vlan1",
            success := true, parsed := none, parse_error := none, error := none } ],
        error := none } :=
  ⟨rfl, rfl⟩

/-- C3: every response the orchestrator returns has derived counts:
`total_devices` is the length of the result list, `successful_devices`
counts the results with `success=true`, `failed_devices` is the difference,
and the two always sum back to the total. -/
theorem c3_response_counts (req : ShowCommandRequest) (settings : Settings)
    (beh : OrchBehavior) (resp : ShowCommandResponse) (log : List String)
    (h : execute_commands req settings beh = .ok (resp, log)) :
    resp.total_devices = resp.results.length ∧
    resp.successful_devices = resp.results.countP (fun r => r.success) ∧
    resp.failed_devices = resp.total_devices - resp.successful_devices ∧
    resp.successful_devices + resp.failed_devices = resp.total_devices := by
  unfold execute_commands at h
  cases hg : global_init req settings beh with
  | error e => rw [hg] at h; exact absurd h (by simp)
  | ok u =>
    rw [hg] at h
    cases hp : process_devices beh req.commands 0 [] req.devices with
    | error e => rw [hp] at h; exact absurd h (by simp)
    | ok pr =>
      obtain ⟨results, log'⟩ := pr
      rw [hp] at h
      simp only [Except.ok.injEq, Prod.mk.injEq] at h
      obtain ⟨h1, -⟩ := h
      subst h1
      refine ⟨rfl, rfl, rfl, ?_⟩
      have hle : results.countP (fun r => r.success) ≤ results.length :=
        List.countP_le_length _
      simp only [build_response]
      omega

/-- C3 witness: the counts theorem applied to the concrete two-device run
`reqC9`/`behC9`. -/
theorem c3_response_counts_witness :
    respC9.total_devices = respC9.results.length ∧
    respC9.successful_devices = respC9.results.countP (fun r => r.success) ∧
    respC9.failed_devices = respC9.total_devices - respC9.successful_devices ∧
    respC9.successful_devices + respC9.failed_devices = respC9.total_devices :=
  c3_response_counts reqC9 settings0 behC9 respC9 [] rfl

/-- C4: the claim says validation rejects a pipe value without a pipe
operator and vice versa.  The code does neither: `validate_pipe_value`'s own
comment promises the first check but its body never reads `pipe_option`, and
nothing validates the converse — both lopsided commands are accepted. -/
theorem c4_pipe_validation_gap :
    mkShowCommand "show version" none (some "up") =
      .ok { command := "show version", pipe_option := none, pipe_value := some "up" } ∧
    mkShowCommand "show version" (some PipeOption.INCLUDE) none =
      .ok { command := "show version", pipe_option := some PipeOption.INCLUDE,
            pipe_value := none } :=
  ⟨rfl, rfl⟩

/-- C5: the claim says the orchestrator invokes the output parser when the
request asks for parsed output.  The code never does: `execute_commands`
drops `output_format` after validation and `process_device` calls
`execute_command` without the `parse` flag, so even under
`output_format=parsed` a successfully executed command comes back with
`parsed=None` and `parse_error=None`. -/
theorem c5_parser_never_invoked :
    reqC5.output_format = OutputFormat.PARSED ∧
    execute_commands reqC5 settings0 behOk =
      .ok ({ results := [resultC5], total_devices := 1,
             successful_devices := 1, failed_devices := 0 }, []) :=
  ⟨rfl, rfl⟩

/-- C6: two devices with the identical jumphost identity `(host, port,
username)` — identical cache key — cause exactly one proxy connection to be
created (the creation log is the single key), and both devices are still
processed (two device results). -/
theorem c6_proxy_cache_reuse (d1 d2 : DeviceCredentials) (j1 j2 : JumphostConfig)
    (req : ShowCommandRequest) (settings : Settings) (beh : OrchBehavior)
    (hd : req.devices = [d1, d2]) (hj1 : d1.jumphost = some j1)
    (hj2 : d2.jumphost = some j2) (hkey : device_key j2 = device_key j1)
    (hjump : req.use_jumphost = false)
    (hproxy : beh.proxy_connect (device_key j1) = .ok ()) :
    (execute_commands req settings beh).map Prod.snd = .ok [device_key j1] ∧
    (execute_commands req settings beh).map (fun p => p.fst.results.length) = .ok 2 := by
  have hg : global_init req settings beh = .ok () := by simp [global_init, hjump]
  have hp : process_devices beh req.commands 0 [] req.devices =
      .ok ([process_device d1 req.commands (beh.session 0),
            process_device d2 req.commands (beh.session 1)], [device_key j1]) := by
    rw [hd]
    simp [process_devices, hj1, hj2, hkey, hproxy]
  constructor <;> simp [execute_commands, hg, hp, build_response, Except.map]

/-- C6 witness: the cache theorem applied to `reqC6`, whose two devices name
the same jumphost identity with different key paths. -/
theorem c6_proxy_cache_reuse_witness :
    (execute_commands reqC6 settings0 behOk).map Prod.snd = .ok [device_key jumpJ] ∧
    (execute_commands reqC6 settings0 behOk).map (fun p => p.fst.results.length) = .ok 2 :=
  c6_proxy_cache_reuse credAJ credBJ jumpJ jumpJ2 reqC6 settings0 behOk rfl rfl rfl rfl rfl rfl

/-- C7 counterexample: the claim says every candidate not beginning with
"show" (case-insensitively) fails validation.  `" show version"` begins with
a space, yet `validate_command` strips whitespace before the verb check and
accepts it. -/
theorem c7_counterexample :
    validate_command " show version" = .ok "show version" := rfl

/-- C7 (amended): for every candidate whose *stripped* form is non-empty, at
most 1000 characters, and does not begin case-insensitively with "show",
validation fails with the message naming the show-only restriction ("show"
is the sole permitted verb); empty and over-length candidates fail earlier
with their own messages, and surrounding whitespace is stripped before the
verb check. -/
theorem c7_show_only_amended (v : String) (h1 : py_strip v ≠ "")
    (h2 : (py_strip v).length ≤ 1000)
    (h3 : py_starts_with (py_lower (py_strip v)) "show" = false) :
    validate_command v = .error "Only 'show' commands are allowed" := by
  have hv : v ≠ "" := by intro hv; rw [hv] at h1; exact h1 rfl
  have hl0 : ¬ (py_strip v).length = 0 := by
    intro h0; exact h1 ((string_length_eq_zero _).mp h0)
  have hl : ¬ 1000 < (py_strip v).length := by omega
  unfold validate_command
  rw [if_neg hv, if_neg hl0, if_neg hl, if_pos h3]

/-- C7 witness: the amended theorem applied to the non-show command
`"reload now"`. -/
theorem c7_show_only_witness :
    validate_command "reload now" = .error "Only 'show' commands are allowed" :=
  c7_show_only_amended "reload now" (by decide) (by decide) (by decide)

/-- C8 counterexample: the claim says every candidate containing a
denylisted character fails validation.  `"show version\n"` contains a
newline, yet `validate_command` strips it away with the surrounding
whitespace and accepts the command. -/
theorem c8_counterexample :
    validate_command "show version\n" = .ok "show version" := rfl

/-- C8 (amended): for every candidate whose *stripped* form begins
case-insensitively with "show", is at most 1000 characters, and still
contains a denylisted pattern, validation fails citing the disallowed
character (the first matching pattern of the denylist scan); denylisted
whitespace characters in leading/trailing position are stripped rather than
rejected, and candidates failing an earlier check (empty, over-length,
non-show) fail with those messages instead. -/
theorem c8_denylist_amended (v : String)
    (h1 : py_starts_with (py_lower (py_strip v)) "show" = true)
    (h2 : (py_strip v).length ≤ 1000)
    (h3 : find_dangerous (py_strip v) ≠ none) :
    validate_command v =
      .error ("Command contains disallowed character(s): '" ++
        dangerous_message (py_strip v) ++ "'") := by
  have hv : v ≠ "" := by
    intro hv; rw [hv] at h1; exact absurd h1 (by decide)
  have hstrip_ne : py_strip v ≠ "" := by
    intro h0; rw [h0] at h1; exact absurd h1 (by decide)
  have hl0 : ¬ (py_strip v).length = 0 := by
    intro h0; exact hstrip_ne ((string_length_eq_zero _).mp h0)
  have hl : ¬ 1000 < (py_strip v).length := by omega
  have hshow : ¬ py_starts_with (py_lower (py_strip v)) "show" = false := by simp [h1]
  unfold validate_command
  rw [if_neg hv, if_neg hl0, if_neg hl, if_neg hshow]
  cases hfd : find_dangerous (py_strip v) with
  | none => exact absurd hfd h3
  | some p => simp [dangerous_message, hfd]

/-- C8 witness: the amended theorem applied to
`"show version | include up"`, whose pipe character is denylisted. -/
theorem c8_denylist_witness :
    validate_command "show version | include up" =
      .error ("Command contains disallowed character(s): '" ++
        dangerous_message (py_strip "show version | include up") ++ "'") :=
  c8_denylist_amended "show version | include up" (by decide) (by decide) (by decide)

/-- C9: two devices where A's connection and both commands succeed and B's
connection fails: the response reports `total_devices=2`,
`successful_devices=1`, `failed_devices=1`; A's command results are fully
populated and B's are empty with its device error set. -/
theorem c9_partial_failure_aggregation :
    execute_commands reqC9 settings0 behC9 = .ok (respC9, []) := rfl

/-- C10: the derived full command appends the pipe filter exactly when a
pipe is specified (both fields present and the value non-empty, which
validation guarantees): the two concrete examples of the claim, plus the
general append/no-append characterization. -/
theorem c10_full_command :
    (mkShowCommand "show running-config" (some PipeOption.INCLUDE) (some "interface")).map
        get_full_command = .ok "show running-config | include interface" ∧
    (mkShowCommand "show version" none none).map get_full_command = .ok "show version" ∧
    (∀ (c : ShowCommand) (op : PipeOption) (pv : String),
      c.pipe_option = some op → c.pipe_value = some pv → pv ≠ "" →
      get_full_command c = c.command ++ " | " ++ op.value ++ " " ++ pv) ∧
    (∀ c : ShowCommand, c.pipe_option = none ∨ c.pipe_value = none →
      get_full_command c = c.command) := by
  refine ⟨rfl, rfl, ?_, ?_⟩
  · intro c op pv hop hpv hne
    simp [get_full_command, hop, hpv, hne]
  · intro c hc
    cases hc with
    | inl h => simp [get_full_command, h]
    | inr h =>
      cases hpo : c.pipe_option with
      | none => simp [get_full_command, hpo]
      | some op => simp [get_full_command, hpo, h]

/-- C10 witness: the append clause of the full-command theorem applied to a
concrete piped command. -/
theorem c10_full_command_witness :
    get_full_command { command := "show ip route", pipe_option := some PipeOption.BEGIN,
                       pipe_value := some "Gateway" } =
      "show ip route" ++ " | " ++ PipeOption.BEGIN.value ++ " " ++ "Gateway" :=
  c10_full_command.2.2.1 _ PipeOption.BEGIN "Gateway" rfl rfl (by decide)

end PyatsApi

